import Mathlib

/-!
Verification of the session/task correlation layer of the elevenlabs-agent
service: a shallow embedding of the Session Store, the Task Registry and the
three route handlers (`POST /agent-tools`, `POST /callback`,
`POST /agent-conversations/api/:id/session`), together with proofs of the
behavioural properties stated in the design specification.

Conventions of the embedding:
- JavaScript values that may be `undefined` are modelled as `Option`;
  JavaScript string truthiness (`undefined` and `""` are falsy) is `strTruthy`.
- The Redis key/value store is an association list from keys to a value and
  its remaining TTL in seconds; `rsetex`, `rget` (`GET` plus JSON parse) and
  `rttl` mirror the commands the services issue.  JSON serialisation to and
  from the store is the identity of the record.
- Wall-clock reads (`new Date().toISOString()`, `Date.now()`) are passed in
  as explicit `now` parameters.
- External collaborators (conversation service, execution client) are
  modelled as oracle results supplied to the handler; conversation-message
  appends are fire-and-forget writes to an external service and carry no
  correlation state, so they are not part of the handler state.
- The handlers are modelled in the Redis-configured deployment (both the
  `SessionService` and the `CallbackQueueService` are constructed).
-/

namespace ElevenLabsAgent

/-- JSON-ish runtime values (including the JavaScript `undefined`). -/
inductive JVal where
  | jundefined : JVal
  | jnull : JVal
  | jbool : Bool → JVal
  | jnum : Int → JVal
  | jstr : String → JVal
  | jarr : List JVal → JVal
  | jobj : List (String × JVal) → JVal

/-- Tests whether a runtime value is the JavaScript `undefined`. -/
def isUndefined : JVal → Bool
  | .jundefined => true
  | _ => false

/-- JavaScript truthiness of a possibly-`undefined` string
(`undefined` and the empty string are falsy). -/
def strTruthy : Option String → Bool
  | some s => s ≠ ""
  | none => false

/-- JavaScript truthiness of a `JVal` (`undefined`, `null`, `false`, `0`
and `""` are falsy; arrays and objects are always truthy). -/
def jTruthy : JVal → Bool
  | .jundefined => false
  | .jnull => false
  | .jbool b => b
  | .jnum n => n ≠ 0
  | .jstr s => s ≠ ""
  | .jarr _ => true
  | .jobj _ => true

/-- The JavaScript `a || b` on a possibly-`undefined` string, with a
string default. -/
def jsOr (a : Option String) (b : String) : String :=
  match a with
  | some s => if s ≠ "" then s else b
  | none => b

/-- The JavaScript `a || b` where both operands are possibly-`undefined`
strings. -/
def jsOrOpt (a b : Option String) : Option String :=
  if strTruthy a then a else b

/-- Embeds a possibly-`undefined` string into `JVal`. -/
def jOfOpt : Option String → JVal
  | some s => .jstr s
  | none => .jundefined

/-- Rendering of a possibly-`undefined` string inside a template literal
(`undefined` prints as the word `undefined`). -/
def jsDisplay : Option String → String
  | some s => s
  | none => "undefined"

/-- Minimal JSON string escaping used by `jsonStringify`. -/
def escJsonChar (c : Char) : String :=
  if c = '"' then "\\\""
  else if c = '\\' then "\\\\"
  else if c = '\n' then "\\n"
  else if c = '\r' then "\\r"
  else if c = '\t' then "\\t"
  else String.singleton c

/-- Escapes a string for inclusion in JSON output. -/
def escJson (s : String) : String :=
  String.join (s.toList.map escJsonChar)

mutual

/-- Model of `JSON.stringify` on runtime values.  A bare `undefined`
renders as the word `undefined` (the template-literal behaviour at the one
call site, which interpolates the result); object fields whose value is
`undefined` are dropped, and `undefined` array elements serialise as
`null`, as in JavaScript. -/
def jsonStringify : JVal → String
  | .jundefined => "undefined"
  | .jnull => "null"
  | .jbool b => if b then "true" else "false"
  | .jnum n => toString n
  | .jstr s => "\"" ++ escJson s ++ "\""
  | .jarr xs => "[" ++ jsonStringifyArr xs ++ "]"
  | .jobj fs => "\x7b" ++ jsonStringifyObj fs ++ "\x7d"

/-- Serialises array elements, comma separated. -/
def jsonStringifyArr : List JVal → String
  | [] => ""
  | [x] => if isUndefined x then "null" else jsonStringify x
  | x :: xs =>
      (if isUndefined x then "null" else jsonStringify x) ++ "," ++
        jsonStringifyArr xs

/-- Serialises object fields, comma separated, dropping `undefined`
values. -/
def jsonStringifyObj : List (String × JVal) → String
  | [] => ""
  | (k, v) :: fs =>
      if isUndefined v then jsonStringifyObj fs
      else
        "\"" ++ escJson k ++ "\":" ++ jsonStringify v ++
          (if (fs.filter (fun f => !isUndefined f.2)).isEmpty then "" else ",") ++
          jsonStringifyObj fs

end

/-- Sets a key in a JavaScript-object association list (in-place overwrite
of an existing key, append otherwise), as object spread/assignment does. -/
def setKey : List (String × JVal) → String → JVal → List (String × JVal)
  | [], k, v => [(k, v)]
  | (k', v') :: rest, k, v =>
      if k' = k then (k, v) :: rest else (k', v') :: setKey rest k v

/-- A Redis-like keyed store: each live key holds a value and its remaining
TTL in seconds. -/
def RStore (α : Type) : Type := List (String × α × Int)

/-- Looks up the full entry (value and remaining TTL) of a key. -/
def rentry {α : Type} : RStore α → String → Option (α × Int)
  | [], _ => none
  | (k', a, t) :: rest, k => if k' = k then some (a, t) else rentry rest k

/-- Model of `GET` plus JSON parse: the stored value, if the key is live. -/
def rget {α : Type} (st : RStore α) (k : String) : Option α :=
  (rentry st k).map (·.1)

/-- Model of the `TTL` command: remaining seconds, or `-2` for a missing
key. -/
def rttl {α : Type} (st : RStore α) (k : String) : Int :=
  match rentry st k with
  | some e => e.2
  | none => -2

/-- Model of `SETEX`: stores the value under the key with the given
expiration, replacing any previous entry. -/
def rsetex {α : Type} : RStore α → String → Int → α → RStore α
  | [], k, e, v => [(k, v, e)]
  | (k', a, t) :: rest, k, e, v =>
      if k' = k then (k, v, e) :: rest else (k', a, t) :: rsetex rest k e v

theorem rentry_rsetex_self {α : Type} (st : RStore α) (k : String) (e : Int)
    (v : α) : rentry (rsetex st k e v) k = some (v, e) := by
  induction st with
  | nil => simp [rsetex, rentry]
  | cons hd tl ih =>
      obtain ⟨k', a, t⟩ := hd
      by_cases h : k' = k
      · simp [rsetex, rentry, h]
      · simp [rsetex, rentry, h, ih]

theorem rsetex_rsetex_self {α : Type} (st : RStore α) (k : String)
    (e e' : Int) (v v' : α) :
    rsetex (rsetex st k e v) k e' v' = rsetex st k e' v' := by
  induction st with
  | nil => simp [rsetex]
  | cons hd tl ih =>
      obtain ⟨k', a, t⟩ := hd
      by_cases h : k' = k
      · simp [rsetex, h]
      · simp [rsetex, h, ih]

theorem rget_rsetex_self {α : Type} (st : RStore α) (k : String) (e : Int)
    (v : α) : rget (rsetex st k e v) k = some v := by
  simp [rget, rentry_rsetex_self]

theorem rttl_rsetex_self {α : Type} (st : RStore α) (k : String) (e : Int)
    (v : α) : rttl (rsetex st k e v) k = e := by
  simp [rttl, rentry_rsetex_self]

/-! ### Session Store (`src/services/session-service.ts`) -/

/-- The `AgentSession` record.  `agentConversationId` does not appear in
the declared interface but is written and read by the webhook routes, so
the stored record carries it. -/
structure AgentSession where
  sessionId : String
  agentId : String
  conversationId : Option String := none
  agentConversationId : Option String := none
  createdAt : String
  lastAccessedAt : String
  metadata : Option (List (String × JVal)) := none

/-- The `SessionService` state: the liveness flag maintained by the
connection-event callbacks, and the backing store. -/
structure SessionService where
  redisAvailable : Bool
  store : RStore AgentSession

/-- Session TTL: one hour, in seconds (`SESSION_TTL`). -/
def SESSION_TTL : Int := 3600

/-- Redis key of a session (`SESSION_PREFIX` plus the session id). -/
def sessionKey (sessionId : String) : String :=
  "elevenlabs:session:" ++ sessionId

/-- `createOrUpdateSession`: no-op when the store is unavailable; otherwise
serialises the record with `lastAccessedAt` overwritten by the current
time and writes it with the TTL reset to the full window. -/
def createOrUpdateSession (svc : SessionService) (session : AgentSession)
    (now : String) : SessionService :=
  if !svc.redisAvailable then svc
  else
    { svc with
        store := rsetex svc.store (sessionKey session.sessionId) SESSION_TTL
          { session with lastAccessedAt := now } }

/-- `getSession`: absent when the store is unavailable; otherwise the
parse of the stored value, if the key is live. -/
def getSession (svc : SessionService) (sessionId : String) :
    Option AgentSession :=
  if !svc.redisAvailable then none
  else
    match rget svc.store (sessionKey sessionId) with
    | none => none
    | some s => some s

/-- Modelled from the spec: `findSessionByConversationId` is invoked by the
`/callback` route and exercised by the test suite, but its definition is
missing from the `SessionService` source file in this snapshot.  Spec
§4.1: "`findByConversationId(conversationId) -> Session | absent`. Linear
scan over all live session keys; returns the first match or absent", and
it degrades to absent when the store is unavailable. -/
def findSessionByConversationId (svc : SessionService)
    (conversationId : String) : Option AgentSession :=
  if !svc.redisAvailable then none
  else
    (svc.store.map (fun e => e.2.1)).find?
      (fun s => s.conversationId = some conversationId)

/-- Reads the `wsUrl` metadata entry of a session
(`session?.metadata?.wsUrl as string | undefined`; the registration route
stores it as a string). -/
def metaWsUrl (s : AgentSession) : Option String :=
  match s.metadata with
  | none => none
  | some m =>
      match m.lookup "wsUrl" with
      | some (.jstr w) => some w
      | _ => none

/-! ### Task Registry (`src/services/callback-queue.ts`) -/

/-- The `CallbackTask` record. -/
structure CallbackTask where
  conversationId : String
  sessionPayload : JVal
  wsUrl : String
  pending : Bool
  createdAt : String
  completedAt : Option String := none
  toolName : Option String := none
  toolArgs : Option (List (String × JVal)) := none
  taskId : String
  requestId : Option String := none
  result : Option JVal := none
  error : Option String := none

/-- Task TTL: 24 hours, in seconds (`TTL`). -/
def TASK_TTL : Int := 86400

/-- Redis key of a task (`KEY_PREFIX` plus the task id). -/
def taskKey (taskId : String) : String :=
  "cursor_task:" ++ taskId

/-- The fields accepted by `createTask`
(`Omit<CallbackTask, "createdAt" | "pending">`). -/
structure NewTask where
  conversationId : String
  sessionPayload : JVal
  wsUrl : String
  toolName : Option String := none
  toolArgs : Option (List (String × JVal)) := none
  taskId : String
  requestId : Option String := none

/-- `createTask`: stores the task with `pending := true`,
`createdAt := now` and the full 24h TTL. -/
def createTask (store : RStore CallbackTask) (t : NewTask) (now : String) :
    RStore CallbackTask :=
  rsetex store (taskKey t.taskId) TASK_TTL
    { conversationId := t.conversationId
      sessionPayload := t.sessionPayload
      wsUrl := t.wsUrl
      pending := true
      createdAt := now
      toolName := t.toolName
      toolArgs := t.toolArgs
      taskId := t.taskId
      requestId := t.requestId }

/-- `getTask`: the parse of the stored value, absent if the key is not
live (read errors also yield absent). -/
def getTask (store : RStore CallbackTask) (taskId : String) :
    Option CallbackTask :=
  rget store (taskKey taskId)

/-- The update object passed to `updateTask`
(`Partial<Pick<CallbackTask, "pending" | "completedAt" | "result" |
"error">>`): the outer `Option` is key presence in the object, the inner
value may itself be `undefined` and still overwrites on spread. -/
structure TaskUpdates where
  pending : Option Bool := none
  completedAt : Option (Option String) := none
  result : Option (Option JVal) := none
  error : Option (Option String) := none

/-- The object spread `\x7b ...existing, ...updates \x7d`. -/
def applyUpdates (t : CallbackTask) (u : TaskUpdates) : CallbackTask :=
  { t with
      pending := u.pending.getD t.pending
      completedAt := u.completedAt.getD t.completedAt
      result := u.result.getD t.result
      error := u.error.getD t.error }

/-- `updateTask`: merges the updates into the existing record and writes
it back with the record's remaining TTL, falling back to the full window
only when the stored TTL is non-positive; a missing record is left
untouched (logged, no implicit creation). -/
def updateTask (store : RStore CallbackTask) (taskId : String)
    (u : TaskUpdates) : RStore CallbackTask :=
  match getTask store taskId with
  | none => store
  | some existing =>
      let updated := applyUpdates existing u
      let ttl := rttl store (taskKey taskId)
      let expiration := if ttl > 0 then ttl else TASK_TTL
      rsetex store (taskKey taskId) expiration updated

/-- `markCompleted`: `updateTask` with `pending := false`,
`completedAt := now`, and the given result and error (the `result` and
`error` keys are present in the update object even when their values are
`undefined`, so they overwrite). -/
def markCompleted (store : RStore CallbackTask) (taskId : String)
    (result : Option JVal) (error : Option String) (now : String) :
    RStore CallbackTask :=
  updateTask store taskId
    { pending := some false
      completedAt := some (some now)
      result := some result
      error := some error }

/-! ### Server state and the `/callback` route
(`src/routes/webhook-routes.ts`, `POST /callback`) -/

/-- The correlation state operated on by the route handlers: the session
service and the task registry's backing store. -/
structure ServerState where
  sessions : SessionService
  tasks : RStore CallbackTask

/-- The `CallbackPayload` body.  The declared interface requires
`requestId`, but the handler re-validates it at runtime, so it is
optional here. -/
structure CallbackPayload where
  success : Bool
  requestId : Option String := none
  conversationId : Option String := none
  output : Option String := none
  error : Option String := none
  timestamp : Option String := none

/-- A message for the push client (`PushMessage`). -/
structure PushMessage where
  type : String
  text : String

/-- `ElevenLabsPushService.constructCompletionMessage`. -/
def constructCompletionMessage (success : Bool) (output error : Option String) :
    PushMessage :=
  if success then
    { type := "input_text"
      text := "Your code task is complete.\n\nSummary:\n" ++
        jsOr output "Task completed successfully" }
  else
    { type := "input_text"
      text := "Your code task encountered an error.\n\nError:\n" ++
        jsOr error "Task failed with unknown error" }

/-- The JSON response the `/callback` handler sends. -/
structure CallbackResponse where
  status : Nat
  success : Bool
  requestId : Option String := none

/-- Outcome of one `/callback` request: the HTTP response, the state after
the handler, and the push deliveries attempted (address and message). -/
structure CallbackOutcome where
  response : CallbackResponse
  state : ServerState
  pushed : List (String × PushMessage)

/-- The address resolution line of the `/callback` handler:
`callbackTask?.wsUrl || (session?.metadata?.wsUrl as string | undefined)`. -/
def wsUrlResolved (callbackTask : Option CallbackTask)
    (session : Option AgentSession) : Option String :=
  let taskWs := callbackTask.map (·.wsUrl)
  if strTruthy taskWs then taskWs else session.bind metaWsUrl

/-- The session lookup of the `/callback` handler: attempted only when the
body carries a truthy `conversationId`. -/
def callbackSessionLookup (body : CallbackPayload) (st : ServerState) :
    Option AgentSession :=
  if strTruthy body.conversationId then
    findSessionByConversationId st.sessions
      (jsDisplay body.conversationId)
  else none

/-- The result argument the `/callback` handler passes to `markCompleted`
(`body.success ? \x7b output: body.output \x7d : undefined`). -/
def callbackResult (body : CallbackPayload) : Option JVal :=
  if body.success then some (.jobj [("output", jOfOpt body.output)])
  else none

/-- The error argument the `/callback` handler passes to `markCompleted`
(`body.success ? undefined : body.error`). -/
def callbackError (body : CallbackPayload) : Option String :=
  if body.success then none else body.error

/-- The `lastCallback` summary recorded into session metadata. -/
def lastCallbackSummary (body : CallbackPayload) : JVal :=
  .jobj [("requestId", jOfOpt body.requestId),
         ("success", .jbool body.success),
         ("timestamp", jOfOpt body.timestamp)]

/-- The `POST /callback` handler: validates `requestId`, looks up the task
by request id and the session by conversation id, pushes a completion
message when an address resolves, marks the task completed when it exists,
records the callback summary into the session, and answers success. -/
def handleCallback (body : CallbackPayload) (now : String) (st : ServerState) :
    CallbackOutcome :=
  if !strTruthy body.requestId then
    { response := { status := 400, success := false }, state := st,
      pushed := [] }
  else
    let rid := jsDisplay body.requestId
    let callbackTask := getTask st.tasks rid
    let session := callbackSessionLookup body st
    let wsUrl := wsUrlResolved callbackTask session
    let pushed :=
      if strTruthy wsUrl then
        [(jsDisplay wsUrl,
          constructCompletionMessage body.success body.output body.error)]
      else []
    let tasks' :=
      match callbackTask with
      | some _ =>
          markCompleted st.tasks rid (callbackResult body)
            (callbackError body) now
      | none => st.tasks
    let sessions' :=
      match session with
      | some s =>
          let md := s.metadata.getD []
          createOrUpdateSession st.sessions
            { s with
                lastAccessedAt := now
                metadata :=
                  some (setKey md "lastCallback" (lastCallbackSummary body)) }
            now
      | none => st.sessions
    { response := { status := 200, success := true, requestId := body.requestId }
      state := { sessions := sessions', tasks := tasks' }
      pushed := pushed }

/-! ### The `/agent-tools` route
(`src/routes/webhook-routes.ts`, `POST /agent-tools`) -/

/-- The `AgentToolRequest` body.  The declared interface requires the
first three fields, but the handler re-validates them at runtime, so they
are optional here; `tool_args` is the argument map in insertion order. -/
structure AgentToolRequest where
  agent_id : Option String := none
  session_id : Option String := none
  tool_name : Option String := none
  tool_args : Option (List (String × JVal)) := none
  conversation_id : Option String := none

/-- `buildPromptFromToolRequest`: renders `tool_name` and `tool_args` into
the natural-language prompt submitted to the execution client. -/
def buildPromptFromToolRequest (request : AgentToolRequest) : String :=
  let toolName := jsDisplay request.tool_name
  let toolArgs := request.tool_args.getD []
  if toolArgs.length > 0 then
    let argsStr := String.intercalate ", "
      (toolArgs.map (fun kv => kv.1 ++ ": " ++ jsonStringify kv.2))
    "Execute " ++ toolName ++ " with parameters: " ++ argsStr
  else
    "Execute " ++ toolName

/-- The environment variables the `/agent-tools` handler reads. -/
structure Env where
  webhookSecret : Option String := none
  elevenlabsAgentUrl : Option String := none

/-- The request given to `cursorRunnerService.executeAsync`. -/
structure ExecRequest where
  prompt : String
  conversationId : Option String := none
  queueType : String
  callbackUrl : String

/-- Oracle results of the external collaborators during one
`/agent-tools` request: the conversation creation (at most one attempt per
request) and the asynchronous execution submission.  A successful
submission carries `result.requestId`, which the response type leaves
optional. -/
structure Externals where
  createConversation : Except String String
  executeAsync : Except String (Option String)

/-- The JSON response the `/agent-tools` handler sends. -/
structure ToolResponse where
  status : Nat
  success : Bool
  sessionId : Option String := none
  requestId : Option String := none

/-- Outcome of one `/agent-tools` request: the HTTP response, the state
after the handler, and the execution request submitted (if the flow
reached submission). -/
structure ToolOutcome where
  response : ToolResponse
  state : ServerState
  execRequest : Option ExecRequest

/-- The get-or-create session block of the `/agent-tools` handler.
Returns the in-memory session variable after the block (absent when a new
conversation could not be created for a new session) and the session
service state after the block's write. -/
def resolveToolSession (body : AgentToolRequest) (ext : Externals)
    (now : String) (svc : SessionService) :
    Option AgentSession × SessionService :=
  match getSession svc (jsDisplay body.session_id) with
  | none =>
      match ext.createConversation with
      | .ok convId =>
          let s : AgentSession :=
            { sessionId := jsDisplay body.session_id
              agentId := jsDisplay body.agent_id
              conversationId := jsOrOpt body.conversation_id (some convId)
              agentConversationId := some convId
              createdAt := now
              lastAccessedAt := now }
          (some s, createOrUpdateSession svc s now)
      | .error _ => (none, svc)
  | some s₀ =>
      let s₁ := { s₀ with lastAccessedAt := now }
      let s₂ :=
        if strTruthy body.conversation_id then
          { s₁ with conversationId := body.conversation_id }
        else s₁
      let s₃ :=
        if strTruthy s₂.agentConversationId then s₂
        else
          match ext.createConversation with
          | .ok convId => { s₂ with agentConversationId := some convId }
          | .error _ => s₂
      (some s₃, createOrUpdateSession svc s₃ now)

/-- The secret check of the `/agent-tools` handler: reject only when the
configured secret and the provided header are both truthy and differ. -/
def secretRejects (env : Env) (providedSecret : Option String) : Prop :=
  strTruthy env.webhookSecret = true ∧ strTruthy providedSecret = true ∧
    providedSecret ≠ env.webhookSecret

instance (env : Env) (providedSecret : Option String) :
    Decidable (secretRejects env providedSecret) := by
  unfold secretRejects; infer_instance

/-- Reads the `sessionPayload` metadata entry of a session
(`session?.metadata?.sessionPayload as unknown`). -/
def metaSessionPayload (s : AgentSession) : Option JVal :=
  match s.metadata with
  | none => none
  | some m => m.lookup "sessionPayload"

/-- The `sessionPayload || \x7b\x7d` default. -/
def sessionPayloadOrEmpty (v : Option JVal) : JVal :=
  match v with
  | some v => if jTruthy v then v else .jobj []
  | none => .jobj []

/-- The `POST /agent-tools` handler: validates the required fields, runs
the soft secret check, resolves or creates the session (best-effort
conversation creation), builds the prompt, submits it asynchronously, and
on a successful submission registers a callback task when a push address
and a request id are available, then answers success; a submission failure
is surfaced as a 500. -/
def handleAgentTools (env : Env) (providedSecret : Option String)
    (body : AgentToolRequest) (ext : Externals) (now : String)
    (st : ServerState) : ToolOutcome :=
  if !(strTruthy body.agent_id && strTruthy body.session_id &&
      strTruthy body.tool_name) then
    { response := { status := 400, success := false }, state := st,
      execRequest := none }
  else if strTruthy env.webhookSecret && strTruthy providedSecret &&
      providedSecret ≠ env.webhookSecret then
    { response := { status := 401, success := false }, state := st,
      execRequest := none }
  else
    let resolved := resolveToolSession body ext now st.sessions
    let session := resolved.1
    let sessions₁ := resolved.2
    let conversationId :=
      jsOrOpt (session.bind (·.conversationId)) body.conversation_id
    let callbackUrl :=
      jsOr env.elevenlabsAgentUrl "http://elevenlabs-agent:3004" ++ "/callback"
    let prompt := buildPromptFromToolRequest body
    let execReq : ExecRequest :=
      { prompt := prompt, conversationId := conversationId,
        queueType := "api", callbackUrl := callbackUrl }
    match ext.executeAsync with
    | .error _ =>
        { response := { status := 500, success := false,
                        sessionId := body.session_id }
          state := { sessions := sessions₁, tasks := st.tasks }
          execRequest := some execReq }
    | .ok requestId? =>
        let wsUrl := session.bind metaWsUrl
        let tasks' :=
          if strTruthy wsUrl && strTruthy requestId? then
            createTask st.tasks
              { taskId := jsDisplay requestId?
                conversationId := jsOr conversationId ""
                sessionPayload :=
                  sessionPayloadOrEmpty (session.bind metaSessionPayload)
                wsUrl := jsDisplay wsUrl
                toolName := body.tool_name
                toolArgs := body.tool_args
                requestId := requestId? } now
          else st.tasks
        { response := { status := 200, success := true,
                        sessionId := body.session_id,
                        requestId := requestId? }
          state := { sessions := sessions₁, tasks := tasks' }
          execRequest := some execReq }

/-! ### The session registration route
(`POST /agent-conversations/api/:id/session`) -/

/-- String view of a runtime value, as produced by the `as string` cast
followed by string use (non-string values keep their display form). -/
def jvalDisplay : JVal → String
  | .jundefined => "undefined"
  | .jnull => "null"
  | .jbool b => if b then "true" else "false"
  | .jnum n => toString n
  | .jstr s => s
  | .jarr xs => jsonStringify (.jarr xs)
  | .jobj fs => jsonStringify (.jobj fs)

/-- `(body.metadata?.agentId as string) || 'default'`. -/
def metaAgentId (md : Option (List (String × JVal))) : String :=
  match md with
  | none => "default"
  | some m =>
      match m.lookup "agentId" with
      | some v => if jTruthy v then jvalDisplay v else "default"
      | none => "default"

/-- The body of `POST /agent-conversations/api/:id/session`. -/
structure RegisterSessionBody where
  sessionUrl : Option String := none
  sessionId : Option String := none
  sessionPayload : Option JVal := none
  expiresAt : Option String := none
  metadata : Option (List (String × JVal)) := none

/-- The session record the registration handler constructs: a fresh
record whose every field is derived from the path parameter, the request
body and the current time (`now` is the ISO timestamp, `nowMs` the
numeric clock used for the synthesized session id). -/
def mkRegisteredSession (conversationId : String) (body : RegisterSessionBody)
    (now : String) (nowMs : Nat) : AgentSession :=
  let wsUrl := jsDisplay body.sessionUrl
  { sessionId := jsOr body.sessionId ("session-" ++ toString nowMs)
    agentId := metaAgentId body.metadata
    conversationId := some conversationId
    agentConversationId := none
    createdAt := now
    lastAccessedAt := now
    metadata :=
      some (setKey (setKey (setKey (setKey (body.metadata.getD [])
        "wsUrl" (.jstr wsUrl))
        "sessionUrl" (.jstr (jsDisplay body.sessionUrl)))
        "sessionPayload" (sessionPayloadOrEmpty body.sessionPayload))
        "expiresAt" (jOfOpt body.expiresAt)) }

/-- The JSON response the registration handler sends. -/
structure RegisterResponse where
  status : Nat
  success : Bool
  sessionId : Option String := none

/-- The `POST /agent-conversations/api/:id/session` handler: validates
`sessionUrl`, constructs a fresh session record from the request alone and
writes it over any record stored under the same session id. -/
def handleRegisterSession (conversationId : String)
    (body : RegisterSessionBody) (svc : SessionService) (now : String)
    (nowMs : Nat) : RegisterResponse × SessionService :=
  if !strTruthy body.sessionUrl then
    ({ status := 400, success := false }, svc)
  else
    let session := mkRegisteredSession conversationId body now nowMs
    ({ status := 200, success := true, sessionId := some session.sessionId },
     createOrUpdateSession svc session now)

/-! ## Claims -/

/-- Unfolding of `updateTask` at an existing record. -/
theorem updateTask_eq_of_get (store : RStore CallbackTask) (taskId : String)
    (u : TaskUpdates) (t : CallbackTask)
    (h : getTask store taskId = some t) :
    updateTask store taskId u
      = rsetex store (taskKey taskId)
          (if rttl store (taskKey taskId) > 0 then
            rttl store (taskKey taskId) else TASK_TTL)
          (applyUpdates t u) := by
  simp [updateTask, h]

/-- C2: for every existing Task record, `updateTask` writes the merged
record back with the record's remaining TTL at the time of the update,
falling back to the full 24h window only when the stored TTL is
non-positive; consequently the TTL right after an update does not exceed a
positive TTL right before it, and stays within the original 86400-second
ceiling whenever the prior TTL was within it. -/
theorem updateTask_preserves_remaining_ttl
    (store : RStore CallbackTask) (taskId : String) (u : TaskUpdates)
    (task : CallbackTask) (t : Int)
    (h : rentry store (taskKey taskId) = some (task, t)) :
    rentry (updateTask store taskId u) (taskKey taskId)
        = some (applyUpdates task u, if t > 0 then t else TASK_TTL)
      ∧ (0 < t → rttl (updateTask store taskId u) (taskKey taskId) ≤ t)
      ∧ (t ≤ TASK_TTL →
          rttl (updateTask store taskId u) (taskKey taskId) ≤ TASK_TTL) := by
  have hget : getTask store taskId = some task := by
    simp [getTask, rget, h]
  have httl : rttl store (taskKey taskId) = t := by
    simp [rttl, h]
  have hupd : updateTask store taskId u =
      rsetex store (taskKey taskId) (if t > 0 then t else TASK_TTL)
        (applyUpdates task u) := by
    simp [updateTask, hget, httl]
  refine ⟨?_, ?_, ?_⟩
  · rw [hupd, rentry_rsetex_self]
  · intro ht
    rw [hupd, rttl_rsetex_self]
    simp [ht]
  · intro ht
    rw [hupd, rttl_rsetex_self]
    by_cases hp : t > 0
    · simpa [hp] using ht
    · simp [hp]

/-- A concrete task record used by the witnesses. -/
def taskA : CallbackTask :=
  { conversationId := "conv-1"
    sessionPayload := .jobj []
    wsUrl := "wss://push.example/a"
    pending := true
    createdAt := "2024-01-01T00:00:00.000Z"
    taskId := "r1"
    requestId := some "r1" }

/-- A concrete task store holding `taskA` with 120 seconds left. -/
def storeA : RStore CallbackTask := [(taskKey "r1", taskA, 120)]

/-- Witness for C2 at a record with 120 seconds of TTL left. -/
theorem updateTask_preserves_remaining_ttl_witness :
    rentry storeA (taskKey "r1") = some (taskA, 120)
      ∧ (rentry (updateTask storeA "r1" { pending := some false })
            (taskKey "r1")
          = some (applyUpdates taskA { pending := some false },
              if (120 : Int) > 0 then 120 else TASK_TTL)
        ∧ (0 < (120 : Int) →
            rttl (updateTask storeA "r1" { pending := some false })
              (taskKey "r1") ≤ 120)
        ∧ ((120 : Int) ≤ TASK_TTL →
            rttl (updateTask storeA "r1" { pending := some false })
              (taskKey "r1") ≤ TASK_TTL)) :=
  ⟨rfl, updateTask_preserves_remaining_ttl storeA "r1"
    { pending := some false } taskA 120 rfl⟩

/-- C7: `markCompleted` is idempotent in effect: re-applying it with the
same task id, result and error (the retry happening at time `n₂`) leaves
the store in exactly the state a single application at `n₂` produces. -/
theorem markCompleted_idempotent (store : RStore CallbackTask)
    (taskId : String) (result : Option JVal) (error : Option String)
    (n₁ n₂ : String) :
    markCompleted (markCompleted store taskId result error n₁) taskId
        result error n₂
      = markCompleted store taskId result error n₂ := by
  cases h : getTask store taskId with
  | none =>
      have h1 : markCompleted store taskId result error n₁ = store := by
        simp [markCompleted, updateTask, h]
      rw [h1]
  | some t =>
      have hexp : (if rttl store (taskKey taskId) > 0 then
          rttl store (taskKey taskId) else TASK_TTL) > 0 := by
        by_cases hp : rttl store (taskKey taskId) > 0
        · rw [if_pos hp]; exact hp
        · rw [if_neg hp]; norm_num [TASK_TTL]
      have h1 : markCompleted store taskId result error n₁ =
          rsetex store (taskKey taskId)
            (if rttl store (taskKey taskId) > 0 then
              rttl store (taskKey taskId) else TASK_TTL)
            (applyUpdates t
              { pending := some false, completedAt := some (some n₁),
                result := some result, error := some error }) := by
        simp [markCompleted, updateTask, h]
      have h2 : getTask (markCompleted store taskId result error n₁) taskId
          = some (applyUpdates t
              { pending := some false, completedAt := some (some n₁),
                result := some result, error := some error }) := by
        rw [h1]; simp [getTask, rget_rsetex_self]
      have h3 : rttl (markCompleted store taskId result error n₁)
          (taskKey taskId)
          = (if rttl store (taskKey taskId) > 0 then
              rttl store (taskKey taskId) else TASK_TTL) := by
        rw [h1]; simp [rttl_rsetex_self]
      have hstep :=
        updateTask_eq_of_get (markCompleted store taskId result error n₁)
          taskId
          { pending := some false, completedAt := some (some n₂),
            result := some result, error := some error } _ h2
      rw [h3, if_pos hexp] at hstep
      have happ : applyUpdates
          (applyUpdates t
            { pending := some false, completedAt := some (some n₁),
              result := some result, error := some error })
          { pending := some false, completedAt := some (some n₂),
            result := some result, error := some error }
          = applyUpdates t
              { pending := some false, completedAt := some (some n₂),
                result := some result, error := some error } := by
        simp [applyUpdates]
      rw [show markCompleted (markCompleted store taskId result error n₁)
            taskId result error n₂
          = updateTask (markCompleted store taskId result error n₁) taskId
              { pending := some false, completedAt := some (some n₂),
                result := some result, error := some error } from rfl,
        hstep, h1, rsetex_rsetex_self, happ]
      exact (updateTask_eq_of_get store taskId _ t h).symm

/-- C8: a Session written via `createOrUpdate` and immediately read back
via `get` (store available, no intervening expiry) is field-for-field the
written record, except that `lastAccessedAt` is refreshed to the write
time. -/
theorem session_roundtrip (svc : SessionService) (session : AgentSession)
    (now : String) (h : svc.redisAvailable = true) :
    getSession (createOrUpdateSession svc session now) session.sessionId
      = some { session with lastAccessedAt := now } := by
  simp [createOrUpdateSession, getSession, h, rget_rsetex_self]

/-- A concrete session record used by the witnesses. -/
def sessOld : AgentSession :=
  { sessionId := "s1"
    agentId := "agent-1"
    conversationId := some "conv-1"
    createdAt := "2024-01-01T00:00:00.000Z"
    lastAccessedAt := "2024-01-01T00:00:00.000Z" }

/-- A concrete available session service storing `sessOld`. -/
def svcOld : SessionService :=
  { redisAvailable := true
    store := [(sessionKey "s1", sessOld, 3600)] }

/-- Witness for C8: writing `sessOld` at a later time and reading it back
returns the record with only `lastAccessedAt` changed. -/
theorem session_roundtrip_witness :
    svcOld.redisAvailable = true
      ∧ getSession
          (createOrUpdateSession svcOld sessOld "2024-01-01T00:10:00.000Z")
          sessOld.sessionId
        = some { sessOld with lastAccessedAt := "2024-01-01T00:10:00.000Z" } :=
  ⟨rfl, session_roundtrip svcOld sessOld "2024-01-01T00:10:00.000Z" rfl⟩

/-- C5, counterexample: `getSession` does not refresh `lastAccessedAt`.
The embedded `getSession` (a faithful translation of the source, which
only issues `GET` and parses) neither reads the clock nor writes the
store, and at this concrete stored session the record it returns still
carries the old stored `lastAccessedAt` — so a bare read does not update
the timestamp, refuting the claim that every read touch refreshes it. -/
theorem getSession_does_not_refresh :
    getSession svcOld "s1" = some sessOld
      ∧ sessOld.lastAccessedAt = "2024-01-01T00:00:00.000Z" :=
  ⟨rfl, rfl⟩

/-- C5, amended: `lastAccessedAt` is refreshed on every write touch
(`createOrUpdate` overwrites it with the current time before storing),
while a bare `get` returns the stored record unchanged — callers that
want read-refresh semantics must write the session back, as the handlers
do. -/
theorem lastAccessedAt_refreshed_on_write (svc : SessionService)
    (session : AgentSession) (now : String) (id : String)
    (s : AgentSession) (h : svc.redisAvailable = true)
    (hs : rget svc.store (sessionKey id) = some s) :
    rget (createOrUpdateSession svc session now).store
        (sessionKey session.sessionId)
      = some { session with lastAccessedAt := now }
      ∧ getSession svc id = some s := by
  constructor
  · simp [createOrUpdateSession, h, rget_rsetex_self]
  · simp [getSession, h, hs]

/-- Witness for C5's amended statement at the concrete stored session. -/
theorem lastAccessedAt_refreshed_on_write_witness :
    svcOld.redisAvailable = true
      ∧ rget svcOld.store (sessionKey "s1") = some sessOld
      ∧ (rget (createOrUpdateSession svcOld sessOld
            "2024-01-01T00:10:00.000Z").store (sessionKey sessOld.sessionId)
          = some { sessOld with lastAccessedAt := "2024-01-01T00:10:00.000Z" }
        ∧ getSession svcOld "s1" = some sessOld) :=
  ⟨rfl, rfl, lastAccessedAt_refreshed_on_write svcOld sessOld
    "2024-01-01T00:10:00.000Z" "s1" sessOld rfl rfl⟩

/-- A concrete tool request with no arguments. -/
def lsRequest : AgentToolRequest :=
  { agent_id := some "agent-1"
    session_id := some "sess-1"
    tool_name := some "ls" }

/-- A concrete tool request with one argument. -/
def catRequest : AgentToolRequest :=
  { agent_id := some "agent-1"
    session_id := some "sess-1"
    tool_name := some "cat"
    tool_args := some [("path", .jstr "/tmp/a.txt")] }

/-- An environment with no webhook secret configured. -/
def envPlain : Env := {}

/-- Concrete collaborator results: conversation creation fails,
submission succeeds with request id `r1`. -/
def extConvDown : Externals :=
  { createConversation := .error "conversation service unavailable"
    executeAsync := .ok (some "r1") }

/-- An empty correlation state with the store available. -/
def emptyState : ServerState :=
  { sessions := { redisAvailable := true, store := [] }, tasks := [] }

/-- C9, counterexample: with an absent argument map the prompt built for
the execution client is `Execute ls`, not the bare tool name `ls` — the
builder always prepends the words `Execute` (and, with arguments,
`with parameters:`). -/
theorem prompt_is_not_bare_tool_name :
    lsRequest.tool_args = none
      ∧ buildPromptFromToolRequest lsRequest = "Execute ls"
      ∧ "Execute ls" ≠ "ls" :=
  ⟨rfl, rfl, by decide⟩

/-- C9, amended: the prompt submitted to the execution client is the one
`buildPromptFromToolRequest` renders: `Execute <tool name>` when the
argument map is empty or absent, and `Execute <tool name> with
parameters: <key: JSON(value) pairs, comma-joined>` otherwise. -/
theorem prompt_submitted_to_execution_client (env : Env)
    (providedSecret : Option String) (body : AgentToolRequest)
    (ext : Externals) (now : String) (st : ServerState)
    (h1 : strTruthy body.agent_id = true)
    (h2 : strTruthy body.session_id = true)
    (h3 : strTruthy body.tool_name = true)
    (hsec : ¬ secretRejects env providedSecret) :
    (handleAgentTools env providedSecret body ext now st).execRequest.map
        (·.prompt)
      = some (buildPromptFromToolRequest body)
      ∧ (body.tool_args.getD [] = [] →
          buildPromptFromToolRequest body
            = "Execute " ++ jsDisplay body.tool_name)
      ∧ (body.tool_args.getD [] ≠ [] →
          buildPromptFromToolRequest body
            = "Execute " ++ jsDisplay body.tool_name ++ " with parameters: "
              ++ String.intercalate ", "
                ((body.tool_args.getD []).map
                  (fun kv => kv.1 ++ ": " ++ jsonStringify kv.2))) := by
  have hneg : ¬((strTruthy env.webhookSecret = true ∧
      strTruthy providedSecret = true) ∧
      ¬providedSecret = env.webhookSecret) :=
    fun hc => hsec ⟨hc.1.1, hc.1.2, hc.2⟩
  refine ⟨?_, ?_, ?_⟩
  · cases hex : ext.executeAsync with
    | error e => simp [handleAgentTools, h1, h2, h3, hneg, hex]
    | ok rid => simp [handleAgentTools, h1, h2, h3, hneg, hex]
  · intro hargs
    simp [buildPromptFromToolRequest, hargs]
  · intro hargs
    have hlen : 0 < (body.tool_args.getD []).length :=
      List.length_pos.mpr hargs
    simp [buildPromptFromToolRequest, hlen, Nat.pos_iff_ne_zero.mp hlen]

/-- Witness for C9's amended statement at the one-argument request. -/
theorem prompt_submitted_to_execution_client_witness :
    strTruthy catRequest.agent_id = true
      ∧ strTruthy catRequest.session_id = true
      ∧ strTruthy catRequest.tool_name = true
      ∧ ¬ secretRejects envPlain none
      ∧ ((handleAgentTools envPlain none catRequest extConvDown
            "2024-01-01T00:00:00.000Z" emptyState).execRequest.map (·.prompt)
          = some (buildPromptFromToolRequest catRequest)
        ∧ (catRequest.tool_args.getD [] = [] →
            buildPromptFromToolRequest catRequest
              = "Execute " ++ jsDisplay catRequest.tool_name)
        ∧ (catRequest.tool_args.getD [] ≠ [] →
            buildPromptFromToolRequest catRequest
              = "Execute " ++ jsDisplay catRequest.tool_name
                ++ " with parameters: "
                ++ String.intercalate ", "
                  ((catRequest.tool_args.getD []).map
                    (fun kv => kv.1 ++ ": " ++ jsonStringify kv.2)))) :=
  ⟨rfl, rfl, rfl, by decide,
    prompt_submitted_to_execution_client envPlain none catRequest extConvDown
      "2024-01-01T00:00:00.000Z" emptyState rfl rfl rfl (by decide)⟩

/-- A truthy `a || b` yields the left operand. -/
theorem jsOr_of_truthy (o : Option String) (d : String)
    (h : strTruthy o = true) : jsOr o d = jsDisplay o := by
  cases o with
  | none => simp [strTruthy] at h
  | some s =>
      simp only [strTruthy, ne_eq, decide_eq_true_eq] at h
      simp [jsOr, jsDisplay, h]

/-- `setKey` leaves the lookup of every other key unchanged. -/
theorem lookup_setKey_ne (m : List (String × JVal)) (k k' : String)
    (v : JVal) (h : k ≠ k') :
    (setKey m k' v).lookup k = m.lookup k := by
  have hbeq : (k == k') = false := beq_eq_false_iff_ne.mpr h
  induction m with
  | nil => simp [setKey, List.lookup, hbeq]
  | cons hd tl ih =>
      obtain ⟨k₀, v₀⟩ := hd
      by_cases h0 : k₀ = k'
      · subst h0
        simp [setKey, List.lookup, hbeq]
      · simp [setKey, h0, List.lookup, ih]

/-- C10: the session registration handler builds an entirely fresh record
from the path parameter, the request body and the clock — `createdAt`
reset to now, `conversationId` from the path, no agent-conversation id,
metadata rebuilt from the body plus the `wsUrl`/`sessionUrl`/
`sessionPayload`/`expiresAt` entries — and writes it over the record
already stored under the same session id, so stored fields and metadata
entries not resent in the request are lost rather than merged (the stored
result `mkRegisteredSession cid body now nowMs` does not mention the old
record at all). -/
theorem register_session_overwrites_wholesale
    (cid : String) (body : RegisterSessionBody) (svc : SessionService)
    (now : String) (nowMs : Nat) (old : AgentSession) (k : String)
    (havail : svc.redisAvailable = true)
    (hurl : strTruthy body.sessionUrl = true)
    (hsid : strTruthy body.sessionId = true)
    (hold : rget svc.store (sessionKey (jsDisplay body.sessionId)) = some old)
    (hk : (body.metadata.getD []).lookup k = none)
    (hk1 : k ≠ "wsUrl") (hk2 : k ≠ "sessionUrl")
    (hk3 : k ≠ "sessionPayload") (hk4 : k ≠ "expiresAt") :
    (mkRegisteredSession cid body now nowMs).sessionId
        = jsDisplay body.sessionId
      ∧ rget (handleRegisterSession cid body svc now nowMs).2.store
          (sessionKey (jsDisplay body.sessionId))
        = some (mkRegisteredSession cid body now nowMs)
      ∧ (mkRegisteredSession cid body now nowMs).createdAt = now
      ∧ (mkRegisteredSession cid body now nowMs).agentConversationId = none
      ∧ (mkRegisteredSession cid body now nowMs).conversationId = some cid
      ∧ ((mkRegisteredSession cid body now nowMs).metadata.getD []).lookup k
        = none := by
  have hsidEq : (mkRegisteredSession cid body now nowMs).sessionId
      = jsDisplay body.sessionId := by
    simp [mkRegisteredSession, jsOr_of_truthy _ _ hsid]
  have hfix : { mkRegisteredSession cid body now nowMs with
      lastAccessedAt := now } = mkRegisteredSession cid body now nowMs := rfl
  refine ⟨hsidEq, ?_, rfl, rfl, rfl, ?_⟩
  · rw [show sessionKey (jsDisplay body.sessionId)
        = sessionKey ((mkRegisteredSession cid body now nowMs).sessionId) from
      by rw [hsidEq]]
    simp only [handleRegisterSession, hurl, Bool.not_true,
      Bool.false_eq_true, if_false, createOrUpdateSession, havail]
    rw [rget_rsetex_self]
    exact congrArg some hfix
  · simp [mkRegisteredSession, lookup_setKey_ne _ _ _ _ hk4,
      lookup_setKey_ne _ _ _ _ hk3, lookup_setKey_ne _ _ _ _ hk2,
      lookup_setKey_ne _ _ _ _ hk1, hk]

/-- A concrete registration body reusing session id `s1`. -/
def regBody : RegisterSessionBody :=
  { sessionUrl := some "wss://live.example/s1"
    sessionId := some "s1"
    sessionPayload := some (.jobj [("token", .jstr "tok")])
    expiresAt := some "2024-01-02T00:00:00.000Z"
    metadata := some [("agentId", .jstr "agent-1"), ("color", .jstr "blue")] }

/-- Witness for C10 at the concrete stored session `sessOld`. -/
theorem register_session_overwrites_wholesale_witness :
    svcOld.redisAvailable = true
      ∧ strTruthy regBody.sessionUrl = true
      ∧ strTruthy regBody.sessionId = true
      ∧ rget svcOld.store (sessionKey (jsDisplay regBody.sessionId))
        = some sessOld
      ∧ (regBody.metadata.getD []).lookup "lost" = none
      ∧ ((mkRegisteredSession "conv-9" regBody "2024-01-01T01:00:00.000Z"
            1704070800000).sessionId = jsDisplay regBody.sessionId
        ∧ rget (handleRegisterSession "conv-9" regBody svcOld
              "2024-01-01T01:00:00.000Z" 1704070800000).2.store
            (sessionKey (jsDisplay regBody.sessionId))
          = some (mkRegisteredSession "conv-9" regBody
              "2024-01-01T01:00:00.000Z" 1704070800000)
        ∧ (mkRegisteredSession "conv-9" regBody "2024-01-01T01:00:00.000Z"
            1704070800000).createdAt = "2024-01-01T01:00:00.000Z"
        ∧ (mkRegisteredSession "conv-9" regBody "2024-01-01T01:00:00.000Z"
            1704070800000).agentConversationId = none
        ∧ (mkRegisteredSession "conv-9" regBody "2024-01-01T01:00:00.000Z"
            1704070800000).conversationId = some "conv-9"
        ∧ ((mkRegisteredSession "conv-9" regBody "2024-01-01T01:00:00.000Z"
            1704070800000).metadata.getD []).lookup "lost" = none) :=
  ⟨rfl, rfl, rfl, rfl, rfl,
    register_session_overwrites_wholesale "conv-9" regBody svcOld
      "2024-01-01T01:00:00.000Z" 1704070800000 sessOld "lost" rfl rfl rfl rfl
      rfl (by decide) (by decide) (by decide) (by decide)⟩

/-- C6: the push address for a completion callback is resolved
Task-first, Session-second — the Task's stored `wsUrl` wins whenever the
Task exists and its address is non-empty, the Session's metadata address
is used in every other case — and inside the `/callback` handler a push is
attempted exactly when this resolution yields a non-empty address. -/
theorem callback_push_address_resolution (t : CallbackTask)
    (task? : Option CallbackTask) (sess? : Option AgentSession)
    (body : CallbackPayload) (st : ServerState) (now : String) :
    (task? = some t → t.wsUrl ≠ "" →
        wsUrlResolved task? sess? = some t.wsUrl)
      ∧ (task? = none → wsUrlResolved task? sess? = sess?.bind metaWsUrl)
      ∧ (task? = some t → t.wsUrl = "" →
          wsUrlResolved task? sess? = sess?.bind metaWsUrl)
      ∧ (strTruthy body.requestId = true →
          ((handleCallback body now st).pushed ≠ [] ↔
            strTruthy (wsUrlResolved
              (getTask st.tasks (jsDisplay body.requestId))
              (callbackSessionLookup body st)) = true)) := by
  refine ⟨?_, ?_, ?_, ?_⟩
  · intro h1 h2
    subst h1
    simp [wsUrlResolved, strTruthy, h2]
  · intro h1
    subst h1
    simp [wsUrlResolved, strTruthy]
  · intro h1 h2
    subst h1
    simp [wsUrlResolved, strTruthy, h2]
  · intro h
    by_cases hx : strTruthy (wsUrlResolved
        (getTask st.tasks (jsDisplay body.requestId))
        (callbackSessionLookup body st)) = true
    · simp [handleCallback, h, hx]
    · simp [handleCallback, h, hx]

/-- A concrete completion callback for request `r1`. -/
def cbBody : CallbackPayload :=
  { success := true
    requestId := some "r1"
    conversationId := some "conv-1"
    output := some "done"
    timestamp := some "2024-01-01T00:05:00.000Z" }

/-- A concrete correlation state holding `taskA` and `sessOld`. -/
def cbState : ServerState := { sessions := svcOld, tasks := storeA }

/-- Witness for C6: the Task's non-empty address wins, and the handler's
push attempt coincides with the resolution being truthy. -/
theorem callback_push_address_resolution_witness :
    wsUrlResolved (some taskA) none = some taskA.wsUrl
      ∧ ((handleCallback cbBody "2024-01-01T00:05:01.000Z" cbState).pushed
          ≠ [] ↔
        strTruthy (wsUrlResolved
          (getTask cbState.tasks (jsDisplay cbBody.requestId))
          (callbackSessionLookup cbBody cbState)) = true) :=
  ⟨(callback_push_address_resolution taskA (some taskA) none cbBody cbState
      "2024-01-01T00:05:01.000Z").1 rfl (by decide),
   (callback_push_address_resolution taskA (some taskA) none cbBody cbState
      "2024-01-01T00:05:01.000Z").2.2.2 rfl⟩

/-- C3: with the required fields present, the `/agent-tools` handler
answers 401 exactly when a configured secret and a provided
`x-webhook-secret` header are both present (truthy) and differ; when that
soft-auth condition fails — either side absent, or both equal — the
request proceeds and the handler answers 200 or surfaces a submission
failure as 500, never 401. -/
theorem agent_tools_secret_policy (env : Env)
    (providedSecret : Option String) (body : AgentToolRequest)
    (ext : Externals) (now : String) (st : ServerState)
    (h1 : strTruthy body.agent_id = true)
    (h2 : strTruthy body.session_id = true)
    (h3 : strTruthy body.tool_name = true) :
    ((handleAgentTools env providedSecret body ext now st).response.status
        = 401 ↔ secretRejects env providedSecret)
      ∧ (¬ secretRejects env providedSecret →
          (handleAgentTools env providedSecret body ext now
              st).response.status = 200
            ∨ (handleAgentTools env providedSecret body ext now
                st).response.status = 500) := by
  by_cases hs : secretRejects env providedSecret
  · have hc : (strTruthy env.webhookSecret = true ∧
        strTruthy providedSecret = true) ∧
        ¬providedSecret = env.webhookSecret := ⟨⟨hs.1, hs.2.1⟩, hs.2.2⟩
    exact ⟨by simp [handleAgentTools, h1, h2, h3, hc, hs],
      fun hns => absurd hs hns⟩
  · have hneg : ¬((strTruthy env.webhookSecret = true ∧
        strTruthy providedSecret = true) ∧
        ¬providedSecret = env.webhookSecret) :=
      fun hc => hs ⟨hc.1.1, hc.1.2, hc.2⟩
    refine ⟨?_, fun _ => ?_⟩
    · cases hex : ext.executeAsync with
      | error e => simp [handleAgentTools, h1, h2, h3, hneg, hex, hs]
      | ok rid => simp [handleAgentTools, h1, h2, h3, hneg, hex, hs]
    · cases hex : ext.executeAsync with
      | error e =>
          right
          simp [handleAgentTools, h1, h2, h3, hneg, hex]
      | ok rid =>
          left
          simp [handleAgentTools, h1, h2, h3, hneg, hex]

/-- An environment with a configured webhook secret. -/
def envSecret : Env := { webhookSecret := some "s3cret" }

/-- Witness for C3: a configured secret plus a differing header is the
rejecting instance. -/
theorem agent_tools_secret_policy_witness :
    strTruthy lsRequest.agent_id = true
      ∧ strTruthy lsRequest.session_id = true
      ∧ strTruthy lsRequest.tool_name = true
      ∧ (((handleAgentTools envSecret (some "wrong") lsRequest extConvDown
            "2024-01-01T00:00:00.000Z" emptyState).response.status = 401 ↔
          secretRejects envSecret (some "wrong"))
        ∧ (¬ secretRejects envSecret (some "wrong") →
            (handleAgentTools envSecret (some "wrong") lsRequest extConvDown
                "2024-01-01T00:00:00.000Z" emptyState).response.status = 200
              ∨ (handleAgentTools envSecret (some "wrong") lsRequest
                  extConvDown "2024-01-01T00:00:00.000Z"
                  emptyState).response.status = 500)) :=
  ⟨rfl, rfl, rfl,
    agent_tools_secret_policy envSecret (some "wrong") lsRequest extConvDown
      "2024-01-01T00:00:00.000Z" emptyState rfl rfl rfl⟩

/-- C4, counterexample: a valid tool-call request whose submission
succeeds with request id `r1` but whose session carries no push address
(here: a brand-new session id whose conversation creation also fails, so
no `wsUrl` is known) gets a success response, yet no Task is registered
under `r1` — the handler registers a task only when a push address is
known. -/
theorem no_task_registered_without_push_address :
    (handleAgentTools envPlain none lsRequest extConvDown
        "2024-01-01T00:00:00.000Z" emptyState).response.status = 200
      ∧ (handleAgentTools envPlain none lsRequest extConvDown
          "2024-01-01T00:00:00.000Z" emptyState).response.requestId
        = some "r1"
      ∧ getTask (handleAgentTools envPlain none lsRequest extConvDown
          "2024-01-01T00:00:00.000Z" emptyState).state.tasks "r1"
        = none :=
  ⟨rfl, rfl, rfl⟩

/-- C4, amended: when the submission succeeds with a truthy request id, a
Task keyed by that id — embedding the session's push address, the original
tool name and arguments, `pending := true` — is registered exactly when
the session's push address (`wsUrl`) is known; without a push address the
task store is left untouched, and in both cases the caller receives the
success response carrying the request id. -/
theorem task_registration_requires_push_address (env : Env)
    (providedSecret : Option String) (body : AgentToolRequest)
    (ext : Externals) (now : String) (st : ServerState) (rid : Option String)
    (h1 : strTruthy body.agent_id = true)
    (h2 : strTruthy body.session_id = true)
    (h3 : strTruthy body.tool_name = true)
    (hsec : ¬ secretRejects env providedSecret)
    (hexec : ext.executeAsync = .ok rid)
    (hrid : strTruthy rid = true) :
    (handleAgentTools env providedSecret body ext now st).response.status
        = 200
      ∧ (handleAgentTools env providedSecret body ext now
          st).response.requestId = rid
      ∧ (strTruthy ((resolveToolSession body ext now st.sessions).1.bind
            metaWsUrl) = true →
          getTask (handleAgentTools env providedSecret body ext now
              st).state.tasks (jsDisplay rid)
            = some
              { conversationId :=
                  jsOr (jsOrOpt ((resolveToolSession body ext now
                      st.sessions).1.bind (·.conversationId))
                    body.conversation_id) ""
                sessionPayload :=
                  sessionPayloadOrEmpty ((resolveToolSession body ext now
                    st.sessions).1.bind metaSessionPayload)
                wsUrl := jsDisplay ((resolveToolSession body ext now
                  st.sessions).1.bind metaWsUrl)
                pending := true
                createdAt := now
                toolName := body.tool_name
                toolArgs := body.tool_args
                taskId := jsDisplay rid
                requestId := rid })
      ∧ (strTruthy ((resolveToolSession body ext now st.sessions).1.bind
            metaWsUrl) = false →
          (handleAgentTools env providedSecret body ext now st).state.tasks
            = st.tasks) := by
  have hneg : ¬((strTruthy env.webhookSecret = true ∧
      strTruthy providedSecret = true) ∧
      ¬providedSecret = env.webhookSecret) :=
    fun hc => hsec ⟨hc.1.1, hc.1.2, hc.2⟩
  refine ⟨?_, ?_, ?_, ?_⟩
  · simp [handleAgentTools, h1, h2, h3, hneg, hexec]
  · simp [handleAgentTools, h1, h2, h3, hneg, hexec]
  · intro hws
    simp [handleAgentTools, h1, h2, h3, hneg, hexec, hws, hrid, getTask,
      createTask, rget_rsetex_self]
  · intro hws
    simp [handleAgentTools, h1, h2, h3, hneg, hexec, hws]

/-- A session for `sess-1` that carries a push address in its metadata. -/
def sessWithWs : AgentSession :=
  { sessionId := "sess-1"
    agentId := "agent-1"
    conversationId := some "conv-1"
    agentConversationId := some "ac-1"
    createdAt := "2024-01-01T00:00:00.000Z"
    lastAccessedAt := "2024-01-01T00:00:00.000Z"
    metadata := some [("wsUrl", .jstr "wss://live.example/s1"),
                      ("sessionPayload", .jobj [("token", .jstr "tok")])] }

/-- A correlation state storing `sessWithWs` and no tasks. -/
def stWithWs : ServerState :=
  { sessions := { redisAvailable := true
                  store := [(sessionKey "sess-1", sessWithWs, 3600)] }
    tasks := [] }

/-- Witness for C4's amended statement at a session with a push
address. -/
theorem task_registration_requires_push_address_witness :
    strTruthy catRequest.agent_id = true
      ∧ strTruthy catRequest.session_id = true
      ∧ strTruthy catRequest.tool_name = true
      ∧ ¬ secretRejects envPlain none
      ∧ extConvDown.executeAsync = .ok (some "r1")
      ∧ strTruthy (some "r1") = true
      ∧ ((handleAgentTools envPlain none catRequest extConvDown
            "2024-01-01T00:06:00.000Z" stWithWs).response.status = 200
        ∧ (handleAgentTools envPlain none catRequest extConvDown
            "2024-01-01T00:06:00.000Z" stWithWs).response.requestId
          = some "r1"
        ∧ (strTruthy ((resolveToolSession catRequest extConvDown
              "2024-01-01T00:06:00.000Z" stWithWs.sessions).1.bind
              metaWsUrl) = true →
            getTask (handleAgentTools envPlain none catRequest extConvDown
                "2024-01-01T00:06:00.000Z" stWithWs).state.tasks
              (jsDisplay (some "r1"))
              = some
                { conversationId :=
                    jsOr (jsOrOpt ((resolveToolSession catRequest extConvDown
                        "2024-01-01T00:06:00.000Z" stWithWs.sessions).1.bind
                      (·.conversationId)) catRequest.conversation_id) ""
                  sessionPayload :=
                    sessionPayloadOrEmpty ((resolveToolSession catRequest
                      extConvDown "2024-01-01T00:06:00.000Z"
                      stWithWs.sessions).1.bind metaSessionPayload)
                  wsUrl := jsDisplay ((resolveToolSession catRequest
                    extConvDown "2024-01-01T00:06:00.000Z"
                    stWithWs.sessions).1.bind metaWsUrl)
                  pending := true
                  createdAt := "2024-01-01T00:06:00.000Z"
                  toolName := catRequest.tool_name
                  toolArgs := catRequest.tool_args
                  taskId := jsDisplay (some "r1")
                  requestId := some "r1" })
        ∧ (strTruthy ((resolveToolSession catRequest extConvDown
              "2024-01-01T00:06:00.000Z" stWithWs.sessions).1.bind
              metaWsUrl) = false →
            (handleAgentTools envPlain none catRequest extConvDown
                "2024-01-01T00:06:00.000Z" stWithWs).state.tasks
              = stWithWs.tasks)) :=
  ⟨rfl, rfl, rfl, by decide, rfl, rfl,
    task_registration_requires_push_address envPlain none catRequest
      extConvDown "2024-01-01T00:06:00.000Z" stWithWs (some "r1") rfl rfl rfl
      (by decide) rfl rfl⟩

/-- The record state `markCompleted` leaves behind: the existing record
with `pending := false`, `completedAt := n`, and the given result and
error. -/
def completedTask (t : CallbackTask) (r : Option JVal) (e : Option String)
    (n : String) : CallbackTask :=
  { t with
      pending := false
      completedAt := some n
      result := r
      error := e }

/-- Reading back a task after `markCompleted` yields the merged record. -/
theorem getTask_markCompleted (store : RStore CallbackTask) (taskId : String)
    (t : CallbackTask) (r : Option JVal) (e : Option String) (n : String)
    (h : getTask store taskId = some t) :
    getTask (markCompleted store taskId r e n) taskId
      = some (completedTask t r e n) := by
  rw [show markCompleted store taskId r e n
      = updateTask store taskId
          { pending := some false, completedAt := some (some n),
            result := some r, error := some e } from rfl,
    updateTask_eq_of_get store taskId _ t h]
  simp [getTask, rget_rsetex_self, applyUpdates, completedTask]

/-- C1: every completion callback carrying a request id gets a success
response (local bookkeeping is attempted, never surfaced as an error);
when a Task record exists for that request id it is marked completed
(`pending := false`, `completedAt` set, the success-dependent result and
error recorded) — the statement quantifies over every state, including
those in which neither the Task nor any Session yields a push address —
and a duplicate callback for the same request id is re-applied
last-write-wins, not rejected: the retry also answers success and leaves
the Task completed with the retry's timestamp. -/
theorem callback_completion_bookkeeping (body : CallbackPayload)
    (st : ServerState) (now now₂ : String) (task : CallbackTask)
    (h : strTruthy body.requestId = true) :
    (handleCallback body now st).response.status = 200
      ∧ (handleCallback body now st).response.success = true
      ∧ (getTask st.tasks (jsDisplay body.requestId) = some task →
          getTask (handleCallback body now st).state.tasks
              (jsDisplay body.requestId)
            = some (completedTask task (callbackResult body)
                (callbackError body) now))
      ∧ (handleCallback body now₂
          (handleCallback body now st).state).response.status = 200
      ∧ (handleCallback body now₂
          (handleCallback body now st).state).response.success = true
      ∧ (getTask st.tasks (jsDisplay body.requestId) = some task →
          getTask (handleCallback body now₂
              (handleCallback body now st).state).state.tasks
              (jsDisplay body.requestId)
            = some (completedTask task (callbackResult body)
                (callbackError body) now₂)) := by
  have hmark : ∀ (st' : ServerState) (t' : CallbackTask) (n : String),
      getTask st'.tasks (jsDisplay body.requestId) = some t' →
      getTask (handleCallback body n st').state.tasks
          (jsDisplay body.requestId)
        = some (completedTask t' (callbackResult body)
            (callbackError body) n) := by
    intro st' t' n hget
    have hst : (handleCallback body n st').state.tasks
        = markCompleted st'.tasks (jsDisplay body.requestId)
            (callbackResult body) (callbackError body) n := by
      simp [handleCallback, h, hget]
    rw [hst]
    exact getTask_markCompleted _ _ _ _ _ _ hget
  refine ⟨by simp [handleCallback, h], by simp [handleCallback, h],
    fun hget => hmark st task now hget,
    by simp [handleCallback, h], by simp [handleCallback, h],
    fun hget => ?_⟩
  have h1 := hmark st task now hget
  have h2 := hmark (handleCallback body now st).state _ now₂ h1
  rw [h2]
  rfl

/-- Witness for C1 at a stored pending task and a duplicate callback. -/
theorem callback_completion_bookkeeping_witness :
    strTruthy cbBody.requestId = true
      ∧ ((handleCallback cbBody "2024-01-01T00:05:01.000Z"
            cbState).response.status = 200
        ∧ (handleCallback cbBody "2024-01-01T00:05:01.000Z"
            cbState).response.success = true
        ∧ (getTask cbState.tasks (jsDisplay cbBody.requestId) = some taskA →
            getTask (handleCallback cbBody "2024-01-01T00:05:01.000Z"
                cbState).state.tasks (jsDisplay cbBody.requestId)
              = some (completedTask taskA (callbackResult cbBody)
                  (callbackError cbBody) "2024-01-01T00:05:01.000Z"))
        ∧ (handleCallback cbBody "2024-01-01T00:05:02.000Z"
            (handleCallback cbBody "2024-01-01T00:05:01.000Z"
              cbState).state).response.status = 200
        ∧ (handleCallback cbBody "2024-01-01T00:05:02.000Z"
            (handleCallback cbBody "2024-01-01T00:05:01.000Z"
              cbState).state).response.success = true
        ∧ (getTask cbState.tasks (jsDisplay cbBody.requestId) = some taskA →
            getTask (handleCallback cbBody "2024-01-01T00:05:02.000Z"
                (handleCallback cbBody "2024-01-01T00:05:01.000Z"
                  cbState).state).state.tasks (jsDisplay cbBody.requestId)
              = some (completedTask taskA (callbackResult cbBody)
                  (callbackError cbBody) "2024-01-01T00:05:02.000Z"))) :=
  ⟨rfl, callback_completion_bookkeeping cbBody cbState
    "2024-01-01T00:05:01.000Z" "2024-01-01T00:05:02.000Z" taskA rfl⟩

end ElevenLabsAgent
